import Mathlib

/-!
Shallow embedding of the VoxStream client session controller
(`src/App.jsx`): the React component's state, its liveness-probe logic
(`checkServer`), channel opening (`connectWebSockets`), the transcript and
status channel message handlers, and the user actions
(`handleAction`, `clearText`, `copyToClipboard`), together with the mount
effect that schedules the periodic probe.

The client is single-threaded (React UI thread); events are modelled as a
step relation on the client state.  WebSocket objects are modelled by their
`readyState`; the `textWs`/`statusWs` refs hold the most recently created
channel, and we keep the full history of created channels as a list whose
head is the current ref, so that statements about "two simultaneous open
channels" are expressible.
-/

set_option autoImplicit false

/-- Engine status flags, as in the `status` React state and the server's
status messages. -/
structure EngineStatus where
  is_recording : Bool
  is_running : Bool
  is_shut_down : Bool
  is_initializing : Bool
deriving DecidableEq, Repr

/-- The fields of a parsed JSON channel message that the handlers inspect:
`data.type`, `data.text`, `data.status`.  `none` models a missing (or
non-string / non-object, hence never matching) field; `some ""` models an
empty string, which is falsy in JavaScript. -/
structure MsgData where
  type? : Option String
  text? : Option String
  status? : Option EngineStatus
deriving DecidableEq, Repr

/-- A raw channel payload: either it parses (`JSON.parse` succeeds) to a
`MsgData`, or `JSON.parse` throws (`malformed`). -/
inductive Payload where
  | malformed : Payload
  | parsed : MsgData → Payload
deriving DecidableEq, Repr

/-- `connectionStatus` React state. -/
inductive ConnPhase where
  | disconnected
  | connecting
  | connected
deriving DecidableEq, Repr

/-- A WebSocket's `readyState`. -/
inductive WsReady where
  | connecting
  | opened
  | closing
  | closed
deriving DecidableEq, Repr

/-- Effect of `ws.close()` on a socket's `readyState`. -/
def closeWs : WsReady → WsReady
  | .connecting => .closing
  | .opened => .closing
  | .closing => .closing
  | .closed => .closed

/-- Close the current (head) channel if the ref is non-null:
`if (ws.current) ws.current.close()`. -/
def closeHead : List WsReady → List WsReady
  | [] => []
  | w :: ws => closeWs w :: ws

/-- The client component state.  `textChans` (resp. `statusChans`) lists
every transcript (status) WebSocket created so far, most recent first; the
head is what the `textWs` (`statusWs`) ref points at, an empty list is a
null ref. -/
structure ClientState where
  text : String
  isServerRunning : Bool
  status : EngineStatus
  connectionStatus : ConnPhase
  isCopying : Bool
  textChans : List WsReady
  statusChans : List WsReady
deriving DecidableEq, Repr

/-- Initial React state on load. -/
def initState : ClientState :=
  { text := ""
    isServerRunning := false
    status :=
      { is_recording := false
        is_running := false
        is_shut_down := true
        is_initializing := false }
    connectionStatus := .disconnected
    isCopying := false
    textChans := []
    statusChans := [] }

/-- `connectWebSockets` from `App.jsx`: bail out if a connect attempt is in
progress, otherwise set `connectionStatus` to connecting, close the old
transcript and status sockets, and create fresh ones (readyState
CONNECTING). -/
def connectWebSockets (s : ClientState) : ClientState :=
  if s.connectionStatus = ConnPhase.connecting then s
  else
    { s with
      connectionStatus := .connecting
      textChans := WsReady.connecting :: closeHead s.textChans
      statusChans := WsReady.connecting :: closeHead s.statusChans }

/-- `checkServer` from `App.jsx`, with the probe outcome (`response.ok`
after a non-throwing fetch) supplied as the Boolean `ok`; a network error
is the same branch as a non-ok response (`throw` into the `catch`).
On success: mark the server running, and (re)connect the WebSockets iff the
transcript ref is null or its socket is CLOSED.  On failure: mark the
server not running, set `connectionStatus` to disconnected, and update the
previous status with `is_shut_down := true, is_initializing := false`. -/
def checkServer (s : ClientState) (ok : Bool) : ClientState :=
  if ok then
    let s1 := { s with isServerRunning := true }
    match s.textChans.head? with
    | none => connectWebSockets s1
    | some w => if w = WsReady.closed then connectWebSockets s1 else s1
  else
    { s with
      isServerRunning := false
      connectionStatus := .disconnected
      status :=
        { s.status with is_shut_down := true, is_initializing := false } }

/-- The transcript channel `onmessage` handler: parse the payload (a parse
failure is caught and logged, leaving the state untouched); if
`data.type === "transcription"` and `data.text` is truthy, append the text
to the buffer, with a single separating space when the buffer is
non-empty. -/
def textWsOnMessage (s : ClientState) (p : Payload) : ClientState :=
  match p with
  | .malformed => s
  | .parsed d =>
    match d.text? with
    | none => s
    | some t =>
      if d.type? = some "transcription" ∧ t ≠ "" then
        { s with text := if s.text = "" then t else s.text ++ " " ++ t }
      else s

/-- The transcript channel `onopen` handler on the channel at index `i`:
the socket becomes OPEN and the handler sets `connectionStatus` to
connected. -/
def textWsOnOpen (s : ClientState) (i : Nat) : ClientState :=
  { s with
    textChans := s.textChans.set i WsReady.opened
    connectionStatus := .connected }

/-- The transcript channel `onclose` handler on the channel at index `i`:
the socket becomes CLOSED and the handler sets `connectionStatus` to
disconnected.  It performs no reconnect. -/
def textWsOnClose (s : ClientState) (i : Nat) : ClientState :=
  { s with
    textChans := s.textChans.set i WsReady.closed
    connectionStatus := .disconnected }

/-- The status channel `onmessage` handler: parse the payload (a parse
failure is caught and logged); if `data.type === "status"` and
`data.status` is truthy, replace the whole local status snapshot with
`data.status`. -/
def statusWsOnMessage (s : ClientState) (p : Payload) : ClientState :=
  match p with
  | .malformed => s
  | .parsed d =>
    match d.status? with
    | none => s
    | some st =>
      if d.type? = some "status" then { s with status := st } else s

/-- The status channel at index `i` finishes opening; the client installs
no `onopen` handler on it, so only the readyState changes. -/
def statusWsOpenEvent (s : ClientState) (i : Nat) : ClientState :=
  { s with statusChans := s.statusChans.set i WsReady.opened }

/-- The status channel at index `i` closes; the client installs no
`onclose` handler on it, so only the readyState changes. -/
def statusWsCloseEvent (s : ClientState) (i : Nat) : ClientState :=
  { s with statusChans := s.statusChans.set i WsReady.closed }

/-- `handleAction` from `App.jsx`: issue the control fetch; `ok` is whether
it returned a success response (a network error or non-ok response only
logs).  When ok, `checkServer` is awaited immediately with the outcome
`probeOk` of its probe. -/
def handleAction (s : ClientState) (ok : Bool) (probeOk : Bool) :
    ClientState :=
  if ok then checkServer s probeOk else s

/-- `clearText` from `App.jsx`: purely local, resets the buffer. -/
def clearText (s : ClientState) : ClientState := { s with text := "" }

/-- `copyToClipboard` from `App.jsx`: writes the buffer to the clipboard
and raises the transient `isCopying` flag; touches nothing else. -/
def copyToClipboard (s : ClientState) : ClientState :=
  { s with isCopying := true }

/-- The `setTimeout` callback of `copyToClipboard` lowering the flag. -/
def copyTimeoutDone (s : ClientState) : ClientState :=
  { s with isCopying := false }

/-- One client event: a probe completion, a channel message, a channel
open/close event, a user action, or the copy-flag timeout.  Open events can
only fire on a CONNECTING socket; close events only on a socket that is not
already CLOSED. -/
inductive Step : ClientState → ClientState → Prop where
  | probe (s : ClientState) (r : Bool) : Step s (checkServer s r)
  | textMsg (s : ClientState) (p : Payload) : Step s (textWsOnMessage s p)
  | statusMsg (s : ClientState) (p : Payload) :
      Step s (statusWsOnMessage s p)
  | textOpen (s : ClientState) (i : Nat)
      (h : s.textChans[i]? = some WsReady.connecting) :
      Step s (textWsOnOpen s i)
  | textClose (s : ClientState) (i : Nat) (w : WsReady)
      (h : s.textChans[i]? = some w) (hw : w ≠ WsReady.closed) :
      Step s (textWsOnClose s i)
  | statusOpen (s : ClientState) (i : Nat)
      (h : s.statusChans[i]? = some WsReady.connecting) :
      Step s (statusWsOpenEvent s i)
  | statusClose (s : ClientState) (i : Nat) (w : WsReady)
      (h : s.statusChans[i]? = some w) (hw : w ≠ WsReady.closed) :
      Step s (statusWsCloseEvent s i)
  | action (s : ClientState) (ok probeOk : Bool) :
      Step s (handleAction s ok probeOk)
  | clear (s : ClientState) : Step s (clearText s)
  | copy (s : ClientState) : Step s (copyToClipboard s)
  | copyDone (s : ClientState) : Step s (copyTimeoutDone s)

/-- States reachable from the initial state by client events. -/
inductive Reachable : ClientState → Prop where
  | init : Reachable initState
  | step {s s' : ClientState} : Reachable s → Step s s' → Reachable s'

/-! ### Spec-side definitions for claim C1 (refinement comparison) -/

/-- Spec-side: the space-joined concatenation of a list of strings (each
string joined to its non-empty predecessor with a single separating
space). -/
def specSpaceJoin : List String → String
  | [] => ""
  | [t] => t
  | t :: u :: ts => t ++ " " ++ specSpaceJoin (u :: ts)

/-- Spec-side: the `text` fields of the transcript-channel messages of kind
"transcription", in arrival order. -/
def specTextFields (ps : List Payload) : List String :=
  ps.filterMap fun p =>
    match p with
    | .malformed => none
    | .parsed d =>
      if d.type? = some "transcription" then d.text? else none

/-- Deliver a sequence of payloads to the transcript channel handler in
arrival order. -/
def runTextMsgs (s : ClientState) (ps : List Payload) : ClientState :=
  ps.foldl textWsOnMessage s

/-- The buffer-append step of the transcript handler, isolated. -/
def appendText (buf t : String) : String :=
  if buf = "" then t else buf ++ " " ++ t

/-- The text actually appended by the handler for one payload: present only
when the payload parses, has kind "transcription", and a truthy `text`. -/
def guardedText : Payload → List String
  | .malformed => []
  | .parsed d =>
    match d.text? with
    | none => []
    | some t =>
      if d.type? = some "transcription" ∧ t ≠ "" then [t] else []

/-- The texts appended by the handler over a sequence of payloads. -/
def guardedTexts : List Payload → List String
  | [] => []
  | p :: ps => guardedText p ++ guardedTexts ps

theorem textWsOnMessage_eq (s : ClientState) (p : Payload) :
    textWsOnMessage s p =
      { s with text := (guardedText p).foldl appendText s.text } := by
  cases p with
  | malformed => rfl
  | parsed d =>
    cases h : d.text? with
    | none => simp [textWsOnMessage, guardedText, h]
    | some t =>
      by_cases hc : d.type? = some "transcription" ∧ t ≠ ""
      · simp [textWsOnMessage, guardedText, h, hc, appendText]
      · simp [textWsOnMessage, guardedText, h, hc]

theorem runTextMsgs_eq (ps : List Payload) (s : ClientState) :
    runTextMsgs s ps =
      { s with text := (guardedTexts ps).foldl appendText s.text } := by
  induction ps generalizing s with
  | nil => rfl
  | cons p ps ih =>
    show runTextMsgs (textWsOnMessage s p) ps = _
    rw [ih, textWsOnMessage_eq]
    simp [guardedTexts, List.foldl_append]

theorem appendText_ne_empty (buf t : String) (h : buf ≠ "") :
    appendText buf t ≠ "" := by
  rw [appendText, if_neg h]
  intro hcontra
  have hlen : (buf ++ " " ++ t).length = ("" : String).length :=
    congrArg String.length hcontra
  rw [String.length_append, String.length_append] at hlen
  have h1 : (" " : String).length = 1 := rfl
  have h0 : ("" : String).length = 0 := rfl
  rw [h1, h0] at hlen
  omega

theorem specSpaceJoin_glue (a b : String) (l : List String) :
    specSpaceJoin ((a ++ " " ++ b) :: l) =
      a ++ " " ++ specSpaceJoin (b :: l) := by
  cases l with
  | nil => rfl
  | cons u l' => simp [specSpaceJoin, String.append_assoc]

theorem foldl_appendText_spaceJoin (l : List String) (buf : String)
    (h : buf ≠ "") :
    l.foldl appendText buf = specSpaceJoin (buf :: l) := by
  induction l generalizing buf with
  | nil => rfl
  | cons t l' ih =>
    show l'.foldl appendText (appendText buf t) = _
    have hb : appendText buf t = buf ++ " " ++ t := by
      rw [appendText, if_neg h]
    rw [ih (appendText buf t) (appendText_ne_empty buf t h), hb,
      specSpaceJoin_glue]
    rfl

theorem foldl_appendText_empty (l : List String)
    (h : ∀ t ∈ l, t ≠ "") :
    l.foldl appendText "" = specSpaceJoin l := by
  cases l with
  | nil => rfl
  | cons t l' =>
    have ht : t ≠ "" := h t (List.mem_cons_self t l')
    show l'.foldl appendText (appendText "" t) = _
    rw [show appendText "" t = t from if_pos rfl,
      foldl_appendText_spaceJoin l' t ht]

theorem guardedText_ne_empty (p : Payload) (t : String)
    (h : t ∈ guardedText p) : t ≠ "" := by
  cases p with
  | malformed => simp [guardedText] at h
  | parsed d =>
    cases hd : d.text? with
    | none => simp [guardedText, hd] at h
    | some u =>
      by_cases hc : d.type? = some "transcription" ∧ u ≠ ""
      · simp [guardedText, hd, hc] at h
        exact h ▸ hc.2
      · simp [guardedText, hd, hc] at h

theorem guardedTexts_ne_empty (ps : List Payload) :
    ∀ t ∈ guardedTexts ps, t ≠ "" := by
  induction ps with
  | nil => intro t h; simp [guardedTexts] at h
  | cons p ps ih =>
    intro t h
    rw [guardedTexts] at h
    rcases List.mem_append.mp h with h1 | h2
    · exact guardedText_ne_empty p t h1
    · exact ih t h2

theorem guardedTexts_eq_filter (ps : List Payload) :
    guardedTexts ps =
      (specTextFields ps).filter fun t => decide (t ≠ "") := by
  induction ps with
  | nil => rfl
  | cons p ps ih =>
    rw [guardedTexts]
    cases p with
    | malformed =>
      simpa [guardedText, specTextFields, List.filterMap_cons] using ih
    | parsed d =>
      by_cases hty : d.type? = some "transcription"
      · cases htxt : d.text? with
        | none =>
          simpa [guardedText, htxt, hty, specTextFields,
            List.filterMap_cons] using ih
        | some t =>
          by_cases ht : t = ""
          · subst ht
            simpa [guardedText, htxt, hty, specTextFields,
              List.filterMap_cons, List.filter_cons] using ih
          · simpa [guardedText, htxt, hty, ht, specTextFields,
              List.filterMap_cons, List.filter_cons] using ih
      · cases htxt : d.text? with
        | none =>
          simpa [guardedText, htxt, hty, specTextFields,
            List.filterMap_cons] using ih
        | some t =>
          simpa [guardedText, htxt, hty, specTextFields,
            List.filterMap_cons] using ih

/-- A two-message sequence on the transcript channel whose second
transcription message carries an empty `text` field. -/
def c1CexMsgs : List Payload :=
  [Payload.parsed
    { type? := some "transcription", text? := some "a", status? := none },
   Payload.parsed
    { type? := some "transcription", text? := some "", status? := none }]

/-- C1, counterexample: delivering two transcription messages with texts
"a" and "" leaves the buffer at "a", while the space-joined concatenation
of the messages' text fields is "a " (with a trailing space) — so the final
buffer does not equal the space-joined concatenation of all the text
fields. -/
theorem c1_transcript_join_cex :
    (runTextMsgs initState c1CexMsgs).text ≠
      specSpaceJoin (specTextFields c1CexMsgs) := by decide

/-- C1, amended: for every sequence of transcript-channel payloads, the
final transcript buffer equals the space-joined concatenation, in arrival
order, of the non-empty `text` fields of the messages of kind
"transcription" — a transcription message with an empty (falsy) or missing
`text` field is dropped by the handler's guard and contributes nothing. -/
theorem c1_transcript_join_amended (ps : List Payload) :
    (runTextMsgs initState ps).text =
      specSpaceJoin
        ((specTextFields ps).filter fun t => decide (t ≠ "")) := by
  rw [runTextMsgs_eq]
  show (guardedTexts ps).foldl appendText "" = _
  rw [foldl_appendText_empty (guardedTexts ps) (guardedTexts_ne_empty ps),
    guardedTexts_eq_filter]

/-! ### Claims about probe failure, actions, and message handling -/

/-- The fully active engine status from the spec's scenario. -/
def activeStatus : EngineStatus :=
  { is_recording := true
    is_running := true
    is_shut_down := false
    is_initializing := false }

/-- A client state whose last known server status is fully active, with
both channels open. -/
def activeState : ClientState :=
  { initState with
    isServerRunning := true
    connectionStatus := .connected
    status := activeStatus
    textChans := [WsReady.opened]
    statusChans := [WsReady.opened] }

/-- Spec-side: the safe default status the spec says a failed probe forces
(`is_shut_down=true`, all activity flags false). -/
def specSafeDefaultStatus : EngineStatus :=
  { is_recording := false
    is_running := false
    is_shut_down := true
    is_initializing := false }

/-- C2, counterexample: a probe failure in a state whose last known status
is fully active leaves `is_recording` (and `is_running`) true — the
displayed status is not the safe default the claim requires, because the
catch branch only forces `is_shut_down` and `is_initializing`. -/
theorem c2_probe_fail_cex :
    (checkServer activeState false).status ≠ specSafeDefaultStatus ∧
      (checkServer activeState false).status.is_recording = true := by
  decide

/-- C2, amended: on every probe failure the client sets `connectionPhase`
to disconnected, marks the server not running, and updates the displayed
status by forcing `is_shut_down := true` and `is_initializing := false`,
carrying over `is_recording` and `is_running` from the previous snapshot
(the handler spreads the previous status and does not clear those two
activity flags). -/
theorem c2_probe_fail_amended (s : ClientState) :
    (checkServer s false).connectionStatus = ConnPhase.disconnected ∧
    (checkServer s false).isServerRunning = false ∧
    (checkServer s false).status.is_shut_down = true ∧
    (checkServer s false).status.is_initializing = false ∧
    (checkServer s false).status.is_recording = s.status.is_recording ∧
    (checkServer s false).status.is_running = s.status.is_running :=
  ⟨rfl, rfl, rfl, rfl, rfl, rfl⟩

/-- C7, counterexample: a `start`/`shutdown` action whose control request
fails (network error or non-ok response) does not re-run the liveness
probe: from the fully active state with a failing request, the resulting
state differs from what re-running the probe would produce. -/
theorem c7_action_probe_cex :
    handleAction activeState false false ≠
      checkServer activeState false := by
  decide

/-- C7, amended: a user action whose control request returns a success
response immediately re-runs the liveness probe (`handleAction` with a
successful request is exactly `checkServer` on the probe outcome); when the
control request fails, the error is only logged and no probe is re-run, so
the state is unchanged. -/
theorem c7_action_probe_amended (s : ClientState) (r : Bool) :
    handleAction s true r = checkServer s r ∧
      handleAction s false r = s :=
  ⟨rfl, rfl⟩

/-- C3: a status-channel message of kind "status" carrying a status object
replaces the local status snapshot wholesale: afterwards the snapshot is
exactly the message's status object, so every field equals the message's
and no field of the previous snapshot carries over. -/
theorem c3_status_replace (s : ClientState) (d : MsgData)
    (st : EngineStatus) (h1 : d.type? = some "status")
    (h2 : d.status? = some st) :
    (statusWsOnMessage s (Payload.parsed d)).status = st := by
  simp [statusWsOnMessage, h2, h1]

/-- The spec scenario's status message: kind "status" with the fully
active status object. -/
def c3Msg : MsgData :=
  { type? := some "status", text? := none, status? := some activeStatus }

/-- C3 witness: the active status message arriving in the initial state
(whose snapshot has `is_shut_down := true`) fully replaces the snapshot. -/
theorem c3_status_replace_witness :
    (statusWsOnMessage initState (Payload.parsed c3Msg)).status =
      activeStatus :=
  c3_status_replace initState c3Msg activeStatus rfl rfl

/-- C4: a payload that fails JSON parsing is dropped and logged on either
channel: the handler returns the state untouched (transcript buffer, status
snapshot and connectionPhase all unchanged) — the handlers are total
functions, so no exception escapes — and a subsequent payload is processed
exactly as if the malformed one had never arrived. -/
theorem c4_malformed_dropped :
    (∀ s : ClientState, textWsOnMessage s Payload.malformed = s) ∧
    (∀ s : ClientState, statusWsOnMessage s Payload.malformed = s) ∧
    (∀ (s : ClientState) (p : Payload),
      textWsOnMessage (textWsOnMessage s Payload.malformed) p =
        textWsOnMessage s p) ∧
    (∀ (s : ClientState) (p : Payload),
      statusWsOnMessage (statusWsOnMessage s Payload.malformed) p =
        statusWsOnMessage s p) :=
  ⟨fun _ => rfl, fun _ => rfl, fun _ _ => rfl, fun _ _ => rfl⟩

/-- C10: a parsed channel message that does not match the expected shape is
ignored.  On the transcript channel: if the kind is not "transcription", or
the `text` field is missing or empty (falsy), the state is unchanged.  On
the status channel: if the kind is not "status", or the `status` field is
missing (falsy), the state is unchanged. -/
theorem c10_unexpected_shape_ignored (s : ClientState) (d : MsgData) :
    (d.type? ≠ some "transcription" ∨ d.text? = none ∨
        d.text? = some "" →
      textWsOnMessage s (Payload.parsed d) = s) ∧
    (d.type? ≠ some "status" ∨ d.status? = none →
      statusWsOnMessage s (Payload.parsed d) = s) := by
  constructor
  · intro h
    cases htxt : d.text? with
    | none => simp [textWsOnMessage, htxt]
    | some t =>
      rcases h with h | h | h
      · simp [textWsOnMessage, htxt, h]
      · rw [htxt] at h; exact absurd h (by simp)
      · rw [htxt] at h
        have ht : t = "" := Option.some.inj h
        simp [textWsOnMessage, htxt, ht]
  · intro h
    cases hst : d.status? with
    | none => simp [statusWsOnMessage, hst]
    | some st =>
      rcases h with h | h
      · simp [statusWsOnMessage, hst, h]
      · rw [hst] at h; exact absurd h (by simp)

/-- A parsed message of an unexpected kind. -/
def c10Msg : MsgData :=
  { type? := some "error", text? := some "boom", status? := none }

/-- C10 witness: a message of kind "error" is ignored by both channel
handlers. -/
theorem c10_unexpected_shape_ignored_witness :
    textWsOnMessage initState (Payload.parsed c10Msg) = initState ∧
      statusWsOnMessage initState (Payload.parsed c10Msg) = initState :=
  ⟨(c10_unexpected_shape_ignored initState c10Msg).1 (Or.inl (by decide)),
   (c10_unexpected_shape_ignored initState c10Msg).2 (Or.inl (by decide))⟩

/-- C8: `clearText` resets the buffer to empty and changes nothing else (in
particular neither the status snapshot nor the connectionPhase; it takes no
server response, performing no server interaction), while every other
handled event — probe failure, transcript-channel close, status-channel
close, status message, copy — leaves the transcript buffer unchanged. -/
theorem c8_clear_only :
    (∀ s : ClientState, clearText s = { s with text := "" }) ∧
    (∀ s : ClientState, (checkServer s false).text = s.text) ∧
    (∀ (s : ClientState) (i : Nat), (textWsOnClose s i).text = s.text) ∧
    (∀ (s : ClientState) (i : Nat),
      (statusWsCloseEvent s i).text = s.text) ∧
    (∀ (s : ClientState) (p : Payload),
      (statusWsOnMessage s p).text = s.text) ∧
    (∀ s : ClientState, (copyToClipboard s).text = s.text) := by
  refine ⟨fun _ => rfl, fun _ => rfl, fun _ _ => rfl, fun _ _ => rfl,
    fun s p => ?_, fun _ => rfl⟩
  cases p with
  | malformed => rfl
  | parsed d =>
    cases hd : d.status? with
    | none => simp [statusWsOnMessage, hd]
    | some st =>
      by_cases h : d.type? = some "status" <;>
        simp [statusWsOnMessage, hd, h]

/-! ### Claim C5: at most one open transcript channel -/

/-- A socket that is not closed nor closing: CONNECTING or OPEN. -/
def wsAlive : WsReady → Bool
  | .connecting => true
  | .opened => true
  | .closing => false
  | .closed => false

/-- Number of simultaneously open (alive) transcript channels among all
channels ever created by the client. -/
def aliveTranscriptCount (s : ClientState) : Nat :=
  s.textChans.countP wsAlive

/-- Every channel other than the current (head) one has been closed. -/
def tailDead (l : List WsReady) : Prop :=
  ∀ w ∈ l.tail, w = WsReady.closing ∨ w = WsReady.closed

theorem closeWs_dead (w : WsReady) :
    closeWs w = WsReady.closing ∨ closeWs w = WsReady.closed := by
  cases w <;> simp [closeWs]

theorem closeHead_dead (l : List WsReady) (h : tailDead l) :
    ∀ w ∈ closeHead l, w = WsReady.closing ∨ w = WsReady.closed := by
  cases l with
  | nil => intro w hw; simp [closeHead] at hw
  | cons a l' =>
    intro w hw
    rw [closeHead] at hw
    rcases List.mem_cons.mp hw with h1 | h2
    · exact h1 ▸ closeWs_dead a
    · exact h w (by simpa using h2)

theorem connectWebSockets_tailDead (s : ClientState)
    (h : tailDead s.textChans) :
    tailDead (connectWebSockets s).textChans := by
  rw [connectWebSockets]
  split
  · exact h
  · intro w hw
    exact closeHead_dead s.textChans h w (by simpa using hw)

theorem checkServer_tailDead (s : ClientState) (r : Bool)
    (h : tailDead s.textChans) :
    tailDead (checkServer s r).textChans := by
  cases r with
  | false => exact h
  | true =>
    have e : checkServer s true =
        (match s.textChans.head? with
          | none => connectWebSockets { s with isServerRunning := true }
          | some w =>
            if w = WsReady.closed then
              connectWebSockets { s with isServerRunning := true }
            else { s with isServerRunning := true }) := rfl
    rw [e]
    split
    · exact connectWebSockets_tailDead _ h
    · split
      · exact connectWebSockets_tailDead _ h
      · exact h

theorem textWsOnMessage_textChans (s : ClientState) (p : Payload) :
    (textWsOnMessage s p).textChans = s.textChans := by
  cases p with
  | malformed => rfl
  | parsed d =>
    cases hd : d.text? with
    | none => simp [textWsOnMessage, hd]
    | some t =>
      by_cases hc : d.type? = some "transcription" ∧ t ≠ "" <;>
        simp [textWsOnMessage, hd, hc]

theorem statusWsOnMessage_textChans (s : ClientState) (p : Payload) :
    (statusWsOnMessage s p).textChans = s.textChans := by
  cases p with
  | malformed => rfl
  | parsed d =>
    cases hd : d.status? with
    | none => simp [statusWsOnMessage, hd]
    | some st =>
      by_cases hc : d.type? = some "status" <;>
        simp [statusWsOnMessage, hd, hc]

theorem tailDead_set_closed (l : List WsReady) (i : Nat)
    (h : tailDead l) : tailDead (l.set i WsReady.closed) := by
  cases l with
  | nil => intro w hw; simp at hw
  | cons a l' =>
    cases i with
    | zero => intro w hw; exact h w (by simpa using hw)
    | succ j =>
      intro w hw
      rw [List.set_cons_succ] at hw
      have hw' : w ∈ l'.set j WsReady.closed := by simpa using hw
      rcases List.mem_or_eq_of_mem_set hw' with h1 | h2
      · exact h w (by simpa using h1)
      · exact Or.inr h2

theorem tailDead_connecting_zero (l : List WsReady) (i : Nat)
    (hd : tailDead l) (h : l[i]? = some WsReady.connecting) : i = 0 := by
  cases i with
  | zero => rfl
  | succ j =>
    exfalso
    cases l with
    | nil => simp at h
    | cons a l' =>
      rw [List.getElem?_cons_succ] at h
      rcases hd WsReady.connecting
          (by simpa using List.getElem?_mem h) with h1 | h1 <;>
        exact absurd h1 (by simp)

theorem textWsOnOpen_tailDead (s : ClientState) (i : Nat)
    (hi : s.textChans[i]? = some WsReady.connecting)
    (h : tailDead s.textChans) :
    tailDead (textWsOnOpen s i).textChans := by
  have h0 : i = 0 := tailDead_connecting_zero s.textChans i h hi
  subst h0
  cases hl : s.textChans with
  | nil => intro w hw; simp [textWsOnOpen, hl] at hw
  | cons a l' =>
    intro w hw
    rw [textWsOnOpen] at hw
    simp only [hl, List.set_cons_zero] at hw
    exact h w (by simp [hl]; simpa using hw)

theorem step_tailDead {s s' : ClientState} (hs : Step s s')
    (ih : tailDead s.textChans) : tailDead s'.textChans := by
  cases hs with
  | probe r => exact checkServer_tailDead s r ih
  | textMsg p => rw [textWsOnMessage_textChans]; exact ih
  | statusMsg p => rw [statusWsOnMessage_textChans]; exact ih
  | textOpen i h => exact textWsOnOpen_tailDead s i h ih
  | textClose i w h hw => exact tailDead_set_closed s.textChans i ih
  | statusOpen i h => exact ih
  | statusClose i w h hw => exact ih
  | action ok probeOk =>
    cases ok with
    | true => exact checkServer_tailDead s probeOk ih
    | false => exact ih
  | clear => exact ih
  | copy => exact ih
  | copyDone => exact ih

theorem reachable_tailDead (s : ClientState) (h : Reachable s) :
    tailDead s.textChans := by
  induction h with
  | init => intro w hw; simp [initState] at hw
  | step hr hs ih => exact step_tailDead hs ih

theorem tailDead_countP_le_one (l : List WsReady) (h : tailDead l) :
    l.countP wsAlive ≤ 1 := by
  cases l with
  | nil => simp
  | cons a l' =>
    have hz : l'.countP wsAlive = 0 := by
      rw [List.countP_eq_zero]
      intro w hw
      rcases h w (by simpa using hw) with h1 | h1 <;> simp [h1, wsAlive]
    rw [List.countP_cons, hz]
    by_cases ha : wsAlive a <;> simp [ha]

/-- C5: in every reachable client state at most one transcript channel is
open (readyState CONNECTING or OPEN) — the handler closes the previous
socket before creating a new one — and a connect attempt already in
progress suppresses a concurrent second attempt: `connectWebSockets` is the
identity whenever `connectionStatus` is already "connecting". -/
theorem c5_idempotent_open :
    (∀ s : ClientState, Reachable s → aliveTranscriptCount s ≤ 1) ∧
    (∀ s : ClientState, s.connectionStatus = ConnPhase.connecting →
      connectWebSockets s = s) := by
  constructor
  · intro s hr
    exact tailDead_countP_le_one s.textChans (reachable_tailDead s hr)
  · intro s h
    rw [connectWebSockets, if_pos h]

/-- A client state in the middle of a connect attempt. -/
def connectingState : ClientState :=
  { initState with connectionStatus := .connecting }

/-- C5 witness: the initial state is reachable and has at most one open
transcript channel, and a connect attempt on a state already connecting
changes nothing. -/
theorem c5_idempotent_open_witness :
    aliveTranscriptCount initState ≤ 1 ∧
      connectWebSockets connectingState = connectingState :=
  ⟨c5_idempotent_open.1 initState Reachable.init,
   c5_idempotent_open.2 connectingState rfl⟩

/-! ### Claim C6: close handler never reconnects -/

theorem checkServer_false_textChans (s : ClientState) :
    (checkServer s false).textChans = s.textChans := rfl

/-- C6: a transcript-channel close event sets `connectionPhase` to
disconnected and creates no channel (the list of channels ever created
keeps its length; only the closing socket's readyState changes); and
across all client events, a step that creates a new transcript channel is
exactly a successful liveness probe (`checkServer` with a success
outcome) — so reconnection is never initiated from the close handler. -/
theorem c6_close_no_reconnect :
    (∀ (s : ClientState) (i : Nat),
      (textWsOnClose s i).connectionStatus = ConnPhase.disconnected ∧
        (textWsOnClose s i).textChans.length = s.textChans.length) ∧
    (∀ s s' : ClientState, Step s s' →
      s.textChans.length < s'.textChans.length →
      s' = checkServer s true) := by
  constructor
  · intro s i
    exact ⟨rfl, List.length_set s.textChans i WsReady.closed⟩
  · intro s s' hs hlen
    cases hs with
    | probe r =>
      cases r with
      | false => exact absurd hlen (by rw [checkServer_false_textChans]; omega)
      | true => rfl
    | textMsg p =>
      exact absurd hlen (by rw [textWsOnMessage_textChans]; omega)
    | statusMsg p =>
      exact absurd hlen (by rw [statusWsOnMessage_textChans]; omega)
    | textOpen i h =>
      exact absurd hlen
        (by rw [show (textWsOnOpen s i).textChans =
            s.textChans.set i WsReady.opened from rfl, List.length_set]; omega)
    | textClose i w h hw =>
      exact absurd hlen
        (by rw [show (textWsOnClose s i).textChans =
            s.textChans.set i WsReady.closed from rfl, List.length_set]; omega)
    | statusOpen i h =>
      exact absurd hlen
        (by rw [show (statusWsOpenEvent s i).textChans = s.textChans
          from rfl]; omega)
    | statusClose i w h hw =>
      exact absurd hlen
        (by rw [show (statusWsCloseEvent s i).textChans = s.textChans
          from rfl]; omega)
    | action ok probeOk =>
      cases ok with
      | false =>
        exact absurd hlen
          (by rw [show (handleAction s false probeOk).textChans =
            s.textChans from rfl]; omega)
      | true =>
        cases probeOk with
        | false =>
          exact absurd hlen
            (by rw [show (handleAction s true false).textChans =
              s.textChans from rfl]; omega)
        | true => rfl
    | clear =>
      exact absurd hlen
        (by rw [show (clearText s).textChans = s.textChans from rfl]; omega)
    | copy =>
      exact absurd hlen
        (by rw [show (copyToClipboard s).textChans = s.textChans from rfl]
            omega)
    | copyDone =>
      exact absurd hlen
        (by rw [show (copyTimeoutDone s).textChans = s.textChans from rfl]
            omega)

/-- C6 witness: closing the open channel of the active state disconnects
the phase; and the concrete channel-creating step from the initial state is
the successful probe. -/
theorem c6_close_no_reconnect_witness :
    (textWsOnClose activeState 0).connectionStatus =
        ConnPhase.disconnected ∧
      checkServer initState true = checkServer initState true :=
  ⟨(c6_close_no_reconnect.1 activeState 0).1,
   c6_close_no_reconnect.2 initState (checkServer initState true)
     (Step.probe initState true) (by decide)⟩

/-! ### Claim C9: probe scheduling -/

/-- The interval period of the probe loop:
`setInterval(checkServer, 5000)` (milliseconds; the spec's "time unit" is
1000 ms). -/
def probePeriod : Nat := 5000

/-- The time at which the k-th probe is scheduled: immediately on load
(k = 0) and every `probePeriod` thereafter, for every k — the schedule is
indefinite. -/
def probeTime (k : Nat) : Nat := probePeriod * k

/-- The mounted component: the client state plus whether the periodic
probe interval is installed. -/
structure Session where
  cs : ClientState
  intervalSet : Bool
deriving DecidableEq, Repr

/-- The mount effect: run `checkServer` once immediately and install the
periodic interval. -/
def mountEffect (s : ClientState) (r : Bool) : Session :=
  { cs := checkServer s r, intervalSet := true }

/-- One firing of the periodic interval: while the interval is installed,
run `checkServer` — with no condition on the client state. -/
def intervalTick (sess : Session) (r : Bool) : Session :=
  if sess.intervalSet then
    { cs := checkServer sess.cs r, intervalSet := sess.intervalSet }
  else sess

/-- The unmount cleanup of the effect: clear the interval and close the
current transcript and status channels. -/
def unmountCleanup (sess : Session) : Session :=
  { cs :=
      { sess.cs with
        textChans := closeHead sess.cs.textChans
        statusChans := closeHead sess.cs.statusChans }
    intervalSet := false }

/-- C9: on load the mount effect immediately runs the probe and installs
the periodic interval; the k-th scheduled probe times are 0 and then a
fixed `probePeriod` apart for every k (indefinitely); while the interval is
installed every tick runs the probe whatever the channel or connection
state is; and the unmount cleanup clears the interval. -/
theorem c9_probe_schedule :
    (∀ (s : ClientState) (r : Bool),
      mountEffect s r = { cs := checkServer s r, intervalSet := true }) ∧
    probeTime 0 = 0 ∧
    (∀ k : Nat, probeTime (k + 1) = probeTime k + probePeriod) ∧
    (∀ (sess : Session) (r : Bool), sess.intervalSet = true →
      intervalTick sess r =
        { cs := checkServer sess.cs r, intervalSet := true }) ∧
    (∀ sess : Session, (unmountCleanup sess).intervalSet = false) := by
  refine ⟨fun _ _ => rfl, rfl, fun k => ?_, fun sess r h => ?_,
    fun _ => rfl⟩
  · rw [probeTime, probeTime, Nat.mul_succ]
  · simp [intervalTick, h]

/-- A mounted session over the fully active client state. -/
def mountedSession : Session := { cs := activeState, intervalSet := true }

/-- C9 witness: a tick on a mounted session over the active state runs the
probe. -/
theorem c9_probe_schedule_witness :
    intervalTick mountedSession true =
      { cs := checkServer activeState true, intervalSet := true } :=
  c9_probe_schedule.2.2.2.1 mountedSession true rfl
